import Mathlib

/-!
Shallow embedding of the CricketRAG retrieval pipeline and history ledger.

The definitions below translate, function by function, the code in
`src/rag/repositories.py` (`RAGRepository.query`, `health_check`),
`src/rag/services.py` (`RAGService.query`),
`src/history/services.py` (`HistoryService.save_query_history`,
`HistoryService.get_query_statistics`) and
`src/history/repositories.py` (`HistoryRepository.get_query_history_paginated`
and the count helpers).  External collaborators (the llama-index query engine,
the SQL engine, the wall clock) are abstracted as explicit environment
parameters; Python floats are modelled as rationals and Python machine ints
as unbounded integers (the program never relies on overflow).
-/

namespace CricketRAG

/-- Modelled from the spec: `DocumentMetadata` of the missing `src/schemas.py`
module (§3 of the spec): `file_name : text`, `page : optional integer`,
`source : optional text`. -/
structure DocumentMetadata where
  file_name : String
  page : Option Int
  source : Option String
deriving DecidableEq

/-- Modelled from the spec: `QueryRequest` of the missing `src/schemas.py`
module (§3): `query : text`, `top_k : positive integer`. -/
structure QueryRequest where
  query : String
  top_k : Nat
deriving DecidableEq

/-- Modelled from the spec: `SourceDocument` of the missing `src/schemas.py`
module (§3): `content : text`, `score : float`, `metadata`. -/
structure SourceDocument where
  content : String
  score : ℚ
  metadata : DocumentMetadata
deriving DecidableEq

/-- Modelled from the spec: `QueryResponse` of the missing `src/schemas.py`
module (§3): `chat_response : text` plus the ordered source-document list. -/
structure QueryResponse where
  chat_response : String
  source_documents : List SourceDocument
deriving DecidableEq

/-! ## Python values and node metadata

`RAGRepository.query` reads heterogeneous node metadata dictionaries whose
values may be strings, integers or `None`.  `PyVal` models exactly those
shapes together with Python truthiness, which drives the `or`-chains at
`src/rag/repositories.py:224-234`. -/

inductive PyVal where
  | vstr (s : String)
  | vint (n : Int)
  | vnone
deriving DecidableEq

/-- Python truthiness of a metadata value: empty string, `0` and `None`
are falsy, everything else is truthy. -/
def PyVal.truthy : PyVal → Bool
  | .vstr s => !s.isEmpty
  | .vint n => n != 0
  | .vnone => false

/-- Python `a or b`: returns `a` when `a` is truthy, else `b`. -/
def pyOr (a b : PyVal) : PyVal := if a.truthy then a else b

/-- A node metadata dictionary, as an association list (first binding wins,
as in a Python dict there is at most one binding per key). -/
abbrev NodeMeta := List (String × PyVal)

/-- Python `d.get(k)`: the bound value, or `None` when the key is absent. -/
def metaGet (m : NodeMeta) (k : String) : PyVal :=
  match m.find? (fun kv => kv.1 == k) with
  | some kv => kv.2
  | none => .vnone

/-- Python `d.get(k, default)` specialised to string values, as used for
`node_metadata.get("file_path", "")` at `src/rag/repositories.py:227`.
(A non-string value under `file_path` would be a runtime type error in the
source; that path is outside every claim.) -/
def metaGetStrD (m : NodeMeta) (k : String) (d : String) : String :=
  match metaGet m k with
  | .vstr s => s
  | _ => d

/-- Python `s.split("/")[-1]`: the last path segment, i.e. the characters
after the final slash (the whole string when no slash occurs, the empty
string when the string is empty or ends in a slash). -/
def lastPathSegment (s : String) : String :=
  s.toList.foldl (fun acc c => if c = '/' then "" else acc.push c) ""

/-- `src/rag/repositories.py:224-229`: the `or`-chain resolving the document
file name from prioritized keys, falling back to `"Unknown Document"`. -/
def resolve_file_name (m : NodeMeta) : PyVal :=
  pyOr (metaGet m "file_name")
    (pyOr (metaGet m "filename")
      (pyOr (.vstr (lastPathSegment (metaGetStrD m "file_path" "")))
        (.vstr "Unknown Document")))

/-- `src/rag/repositories.py:230-234`: the `or`-chain resolving the raw page
value across the alternate keys `page`, `page_number`, `page_label`. -/
def resolve_page_raw (m : NodeMeta) : PyVal :=
  pyOr (metaGet m "page")
    (pyOr (metaGet m "page_number") (metaGet m "page_label"))

/-- Python `s.isdigit()` restricted to ASCII digits (the only case the
program's data exercises): nonempty and all characters are digits. -/
def pyIsDigit (s : String) : Bool :=
  !(s.toList.isEmpty) && s.toList.all Char.isDigit

/-- Python `int(s)` on a digit-only string: its decimal value. -/
def strToNat (s : String) : Nat :=
  s.toList.foldl (fun n c => n * 10 + (c.toNat - 48)) 0

/-- `src/rag/repositories.py:236-239`: keep an integer page, convert a
digit-only string, and drop everything else. -/
def coerce_page : PyVal → Option Int
  | .vstr s => if pyIsDigit s then some ((strToNat s : Nat) : Int) else none
  | .vint n => some n
  | .vnone => none

/-- The normalized page of a node metadata dictionary. -/
def resolved_page (m : NodeMeta) : Option Int :=
  coerce_page (resolve_page_raw m)

/-- Rendering of the resolved file-name value into the string field of
`DocumentMetadata` (the resolved value is a string in every reachable case). -/
def PyVal.asString : PyVal → String
  | .vstr s => s
  | .vint n => toString n
  | .vnone => "None"

/-- `src/rag/repositories.py:241-245`: the structured metadata built for one
retained node. -/
def normalize_metadata (m : NodeMeta) : DocumentMetadata :=
  { file_name := (resolve_file_name m).asString
    page := resolved_page m
    source := match metaGet m "file_path" with
      | .vstr s => some s
      | _ => none }

/-! ## The query pipeline (`RAGRepository.query`, `src/rag/repositories.py:174-263`)

The llama-index query engine, the database probe and the vector-store state
are abstracted into `RagEnv`.  The function returns the `Except` outcome of
the call together with a trace of the external effects it triggered, so that
"nothing is retrieved or synthesized on failure" is expressible. -/

/-- A candidate chunk as ranked by the external similarity search
(descending relevance order in `candidates`). -/
structure RetrievedNode where
  text : String
  score : ℚ
  node_metadata : NodeMeta
deriving DecidableEq

/-- Environment of one `RAGRepository.query` call. -/
structure RagEnv where
  /-- `self.engine` is set and `SELECT 1` succeeds on it. -/
  engineConnected : Bool
  /-- `self.vector_store is not None`. -/
  vectorStoreBound : Bool
  /-- `Settings.llm is not None and Settings.embed_model is not None`. -/
  modelsBound : Bool
  /-- `self.index is not None` on entry. -/
  indexPresent : Bool
  /-- What `get_document_count` returns. -/
  docCount : Nat
  /-- The ranked candidate list the external similarity search would return,
  best first. -/
  candidates : List RetrievedNode
  /-- The external tree-summarize synthesis over the retrieved chunks. -/
  synthesize : List RetrievedNode → String

/-- The dict built by `health_check` (`src/rag/repositories.py:350-386`):
with `require_index=False` the `index` entry is unconditionally `True`. -/
structure HealthStatus where
  database : Bool
  vector_store : Bool
  models : Bool
  index : Bool
deriving DecidableEq

/-- `RAGRepository.health_check` over the abstract environment. -/
def health_check (env : RagEnv) (require_index : Bool) : HealthStatus :=
  { database := env.engineConnected
    vector_store := env.vectorStoreBound
    models := env.modelsBound
    index := if require_index then env.indexPresent else true }

/-- `src/rag/repositories.py:185-187`: `basic_health` drops the `index` entry
and the guard requires all remaining values truthy. -/
def basic_health_ok (env : RagEnv) : Bool :=
  let h := health_check env false
  h.database && h.vector_store && h.models

/-- The `ValueError`s `RAGRepository.query` can raise before reaching the
external engine. -/
inductive QueryError where
  | notHealthy
  | emptyIndex
  | vectorStoreNotInitialized
deriving DecidableEq

/-- The exception text of each raise site in `RAGRepository.query`. -/
def QueryError.message : QueryError → String
  | .notHealthy => "System not healthy for queries"
  | .emptyIndex => "No documents in vector store"
  | .vectorStoreNotInitialized => "Vector store not initialized"

/-- External effects of a pipeline call, in order. -/
inductive PipelineEffect where
  | search (similarity_top_k : Nat) (cutoff : ℚ)
  | synthesize
deriving DecidableEq

/-- `src/rag/repositories.py:215`: the fixed similarity cutoff. -/
def similarity_cutoff : ℚ := 0.6

/-- `src/rag/repositories.py:210`: `optimized_top_k = min(top_k * 2, 15)`. -/
def optimized_top_k (top_k : Nat) : Nat := min (top_k * 2) 15

/-- Modelled from the spec: the external llama-index engine retrieves the
`k` best candidates and the similarity cutoff discards weak matches
(spec §4.4 step 4); not code of this repository. -/
def engine_retrieve (cands : List RetrievedNode) (k : Nat) (cutoff : ℚ) :
    List RetrievedNode :=
  (cands.take k).filter (fun n => cutoff ≤ n.score)

/-- `src/rag/repositories.py:247-252`: the source document built from one
retained node. -/
def mk_source_document (n : RetrievedNode) : SourceDocument :=
  { content := n.text
    score := n.score
    metadata := normalize_metadata n.node_metadata }

/-- `RAGRepository.query` (`src/rag/repositories.py:174-263`): health gate,
empty-index gate, lazy index rehydration, over-fetch-then-truncate retrieval,
metadata normalization.  Returns the call outcome and the effect trace. -/
def rag_repository_query (env : RagEnv) (req : QueryRequest) :
    Except QueryError QueryResponse × List PipelineEffect :=
  if !(basic_health_ok env) then (.error .notHealthy, [])
  else if env.docCount == 0 then (.error .emptyIndex, [])
  else if !env.indexPresent && !env.vectorStoreBound then
    (.error .vectorStoreNotInitialized, [])
  else
    let k := optimized_top_k req.top_k
    let retrieved := engine_retrieve env.candidates k similarity_cutoff
    let source_documents :=
      if retrieved.isEmpty then []
      else (retrieved.take req.top_k).map mk_source_document
    (.ok { chat_response := env.synthesize retrieved
           source_documents := source_documents },
     [.search k similarity_cutoff, .synthesize])

/-! ## The orchestration service (`RAGService.query`, `src/rag/services.py:80-114`) -/

/-- Environment of one `RAGService.query` call: the pipeline outcome
(`.error` carries `str(e)`), whether the history write raises, and the two
clock readings (seconds, as returned by `time.time()`). -/
structure OrchestrationEnv where
  pipeline_outcome : Except String QueryResponse
  save_fails : Bool
  time_at_start : ℚ
  time_after_pipeline : ℚ

/-- The arguments of one `history_service.save_query_history` attempt. -/
structure SaveCall where
  request : QueryRequest
  response : QueryResponse
  response_time_ms : Int
  success : Bool
  error_message : Option String
deriving DecidableEq

/-- `src/rag/services.py:92-94`: the placeholder response pre-assigned to
`result` before the pipeline is attempted. -/
def error_placeholder_response : QueryResponse :=
  { chat_response := "Error processing query.", source_documents := [] }

/-- Python `int()` on a rational: truncation toward zero. -/
def pyIntOfRat (q : ℚ) : Int := q.num.tdiv (q.den : Int)

/-- Observable outcome of `RAGService.query`: the returned response, the
ledger-write attempts made in the `finally` block, and whether the attempted
write succeeded. -/
structure OrchestrationResult where
  response : QueryResponse
  save_calls : List SaveCall
  saved : Bool
deriving DecidableEq

/-- `RAGService.query` (`src/rag/services.py:80-114`): try the pipeline,
catch every exception into the placeholder response, and in the `finally`
block attempt exactly one history write, swallowing its failure.  The
`Except` result models exception propagation out of the method. -/
def rag_service_query (env : OrchestrationEnv) (req : QueryRequest) :
    Except String OrchestrationResult :=
  let result_success_error :=
    match env.pipeline_outcome with
    | .ok r => (r, true, (none : Option String))
    | .error e => (error_placeholder_response, false, some e)
  let result := result_success_error.1
  let response_time_ms :=
    pyIntOfRat ((env.time_after_pipeline - env.time_at_start) * 1000)
  let call : SaveCall :=
    { request := req
      response := result
      response_time_ms := response_time_ms
      success := result_success_error.2.1
      error_message := result_success_error.2.2 }
  .ok { response := result, save_calls := [call], saved := !env.save_fails }

/-! ## The history ledger

Rows of the `QueryHistory` table (`src/history/models.py`); the database is
modelled as the list of stored rows, in insertion order. -/

structure QueryHistoryRow where
  id : Nat
  query : String
  chat_response : String
  top_k : Nat
  response_time_ms : Option Int
  source_document_count : Nat
  created_at : Nat
  success : Bool
  error_message : Option String
deriving DecidableEq

/-- `HistoryRepository.get_total_query_count`
(`src/history/repositories.py:262-276`): the number of stored rows. -/
def get_total_query_count (db : List QueryHistoryRow) : Nat := db.length

/-- `HistoryRepository.get_successful_query_count`
(`src/history/repositories.py:278-292`): rows with `success == True`. -/
def get_successful_query_count (db : List QueryHistoryRow) : Nat :=
  (db.filter (fun r => r.success)).length

/-- `HistoryRepository.get_queries_with_response_time`
(`src/history/repositories.py:294-310`): rows whose `response_time_ms` is
not NULL. -/
def get_queries_with_response_time (db : List QueryHistoryRow) :
    List QueryHistoryRow :=
  db.filter (fun r => r.response_time_ms.isSome)

/-- Python truthiness of an optional int (`if q.response_time_ms`): `None`
and `0` are falsy. -/
def pyTruthyOptInt : Option Int → Bool
  | some n => n != 0
  | none => false

/-- Round-half-to-even of a rational to an integer, as Python `round` on an
exactly representable value. -/
def roundHalfEven (q : ℚ) : ℤ :=
  if q - ⌊q⌋ < 1 / 2 then ⌊q⌋
  else if q - ⌊q⌋ > 1 / 2 then ⌊q⌋ + 1
  else if ⌊q⌋ % 2 = 0 then ⌊q⌋ else ⌊q⌋ + 1

/-- Python `round(q, 2)`. -/
def pyRound2 (q : ℚ) : ℚ := (roundHalfEven (q * 100) : ℚ) / 100

/-- The statistics payload (`src/history/schemas.py:51-59`). -/
structure QueryStatisticsResponse where
  total_queries : Nat
  successful_queries : Nat
  success_rate_percent : ℚ
  average_response_time_ms : Option ℚ
deriving DecidableEq

/-- `HistoryService.get_query_statistics` (`src/history/services.py:77-107`):
the sum skips falsy (`0` or `None`) times, the divisor is the count of rows
with a non-NULL time, and the final value is rounded only when the
(unrounded) average is truthy. -/
def get_query_statistics (db : List QueryHistoryRow) : QueryStatisticsResponse :=
  let total := get_total_query_count db
  let successful := get_successful_query_count db
  let withTime := get_queries_with_response_time db
  let avg : Option ℚ :=
    if withTime.isEmpty then none
    else some
      ((((withTime.filter (fun q => pyTruthyOptInt q.response_time_ms)).map
          (fun q => ((q.response_time_ms.getD 0 : Int) : ℚ))).sum) /
        (withTime.length : ℚ))
  let success_rate : ℚ :=
    if total > 0 then (successful : ℚ) / (total : ℚ) * 100 else 0
  { total_queries := total
    successful_queries := successful
    success_rate_percent := pyRound2 success_rate
    average_response_time_ms :=
      match avg with
      | some a => if a != 0 then some (pyRound2 a) else none
      | none => none }

/-- Spec-side definition, following the claim's words only: the mean of all
non-null response times (used to compare the code's average against the
spec's description; division by zero never arises in the comparison because
the empty case is handled separately). -/
def spec_mean_response_time (db : List QueryHistoryRow) : ℚ :=
  (((db.filterMap (fun r => r.response_time_ms)).map (fun n => (n : ℚ))).sum) /
    ((db.filterMap (fun r => r.response_time_ms)).length : ℚ)

/-! ## Pagination (`HistoryRepository.get_query_history_paginated`,
`src/history/repositories.py:155-192`) -/

/-- The paginated payload (`src/history/schemas.py:42-48`). -/
structure QueryHistoryListResponse where
  items : List QueryHistoryRow
  total_count : Nat
  limit : Nat
  offset : Nat
deriving DecidableEq

/-- `ORDER BY created_at DESC` as executed by the SQL engine: a stable sort,
most recent first. -/
def history_sort_desc (db : List QueryHistoryRow) : List QueryHistoryRow :=
  db.mergeSort (fun a b => b.created_at ≤ a.created_at)

/-- `HistoryRepository.get_query_history_paginated`: order by creation time
descending, skip `offset` rows, return at most `limit` rows, and attach the
total count computed over the whole table. -/
def get_query_history_paginated (db : List QueryHistoryRow)
    (limit offset : Nat) : QueryHistoryListResponse :=
  { items := ((history_sort_desc db).drop offset).take limit
    total_count := get_total_query_count db
    limit := limit
    offset := offset }

/-! ## Recording a query (`HistoryService.save_query_history`,
`src/history/services.py:27-59`, with
`HistoryRepository.create_query_history` and
`HistoryRepository.create_source_document_history`,
`src/history/repositories.py:53-153`) -/

/-- Environment of one `save_query_history` call: whether the parent insert
raises, which child inserts raise (by position in the source-document list),
and the id the database generates for the parent row. -/
structure HistoryEnv where
  parentFails : Bool
  childFails : Nat → Bool
  newParentId : Nat

/-- The arguments passed to `create_query_history`. -/
structure ParentArgs where
  query : String
  chat_response : String
  top_k : Nat
  response_time_ms : Option Int
  source_document_count : Nat
  success : Bool
  error_message : Option String
deriving DecidableEq

/-- One database write attempt made while recording a query, with whether it
committed. -/
inductive LedgerWrite where
  | parentAttempt (args : ParentArgs) (committed : Bool)
  | childAttempt (idx : Nat) (content_preview : String) (score : ℚ)
      (committed : Bool)
deriving DecidableEq

/-- Whether a write attempt targets the child table. -/
def LedgerWrite.isChild : LedgerWrite → Bool
  | .childAttempt _ _ _ _ => true
  | .parentAttempt _ _ => false

/-- The loop of `src/history/services.py:48-54`: one
`create_source_document_history` attempt per source document, with
`content_preview = doc.content[:500]`; each attempt catches its own
exception (`src/history/repositories.py:151-153`), so a failure never
aborts the remaining iterations. -/
def child_writes (env : HistoryEnv) : Nat → List SourceDocument → List LedgerWrite
  | _, [] => []
  | i, d :: ds =>
    .childAttempt i (d.content.take 500) d.score (!env.childFails i) ::
      child_writes env (i + 1) ds

/-- The arguments `save_query_history` passes to `create_query_history`
(`src/history/services.py:37-45`). -/
def record_args (req : QueryRequest) (resp : QueryResponse)
    (response_time_ms : Option Int) (success : Bool)
    (error_message : Option String) : ParentArgs :=
  { query := req.query
    chat_response := resp.chat_response
    top_k := req.top_k
    response_time_ms := response_time_ms
    source_document_count := resp.source_documents.length
    success := success
    error_message := error_message }

/-- `HistoryService.save_query_history`: write the parent row; on parent
failure return `None` without touching the child table; otherwise attempt
one child row per source document and return the parent id.  The result is
the returned id and the trace of write attempts. -/
def save_query_history (env : HistoryEnv) (req : QueryRequest)
    (resp : QueryResponse) (response_time_ms : Option Int) (success : Bool)
    (error_message : Option String) : Option Nat × List LedgerWrite :=
  let args := record_args req resp response_time_ms success error_message
  if env.parentFails then (none, [.parentAttempt args false])
  else
    (some env.newParentId,
      .parentAttempt args true :: child_writes env 0 resp.source_documents)

/-! ## Helper lemmas -/

theorem pyOr_of_truthy (a b : PyVal) (h : a.truthy = true) : pyOr a b = a := by
  simp [pyOr, h]

theorem pyOr_of_falsy (a b : PyVal) (h : a.truthy = false) : pyOr a b = b := by
  simp [pyOr, h]

theorem truthy_vstr_of_ne (s : String) (hs : s ≠ "") :
    (PyVal.vstr s).truthy = true := by
  have he : s.isEmpty = false := by
    rw [Bool.eq_false_iff]
    intro hc
    exact hs ((String.isEmpty_iff s).mp hc)
  simp [PyVal.truthy, he]

/-! ## Claim C4 -/

/-- C4: metadata normalization resolves `file_name` from the prioritized keys
`file_name`, then `filename`, then the last path segment of `file_path`, else
the literal `"Unknown Document"` (so `{"file_name": "a.pdf"}` gives `"a.pdf"`
and `{}` gives `"Unknown Document"`); and resolves `page` across the keys
`page`, `page_number`, `page_label`, coercing the resolved value to an
integer only when it is already an integer or a digit-only string (so `"7"`
gives `7`) and treating it as absent otherwise (so `"seven"` gives null). -/
theorem C4_metadata_normalization :
    ((normalize_metadata [("file_name", PyVal.vstr "a.pdf")]).file_name = "a.pdf"
      ∧ (normalize_metadata []).file_name = "Unknown Document"
      ∧ (normalize_metadata [("page", PyVal.vstr "7")]).page = some 7
      ∧ (normalize_metadata [("page", PyVal.vstr "seven")]).page = none)
    ∧ (∀ (m : NodeMeta) (s : String), metaGet m "file_name" = .vstr s → s ≠ "" →
        (normalize_metadata m).file_name = s)
    ∧ (∀ (m : NodeMeta) (s : String), (metaGet m "file_name").truthy = false →
        metaGet m "filename" = .vstr s → s ≠ "" →
        (normalize_metadata m).file_name = s)
    ∧ (∀ (m : NodeMeta) (p : String), (metaGet m "file_name").truthy = false →
        (metaGet m "filename").truthy = false →
        metaGet m "file_path" = .vstr p → lastPathSegment p ≠ "" →
        (normalize_metadata m).file_name = lastPathSegment p)
    ∧ (∀ (m : NodeMeta), (metaGet m "file_name").truthy = false →
        (metaGet m "filename").truthy = false →
        lastPathSegment (metaGetStrD m "file_path" "") = "" →
        (normalize_metadata m).file_name = "Unknown Document")
    ∧ (∀ (m : NodeMeta),
        (normalize_metadata m).page = coerce_page (resolve_page_raw m))
    ∧ (∀ n : Int, coerce_page (.vint n) = some n)
    ∧ (∀ s : String, pyIsDigit s = true →
        coerce_page (.vstr s) = some (strToNat s))
    ∧ (∀ s : String, pyIsDigit s = false → coerce_page (.vstr s) = none)
    ∧ coerce_page .vnone = none := by
  refine ⟨by decide, ?_, ?_, ?_, ?_, fun m => rfl, fun n => rfl, ?_, ?_, rfl⟩
  · intro m s h hs
    show (resolve_file_name m).asString = s
    rw [resolve_file_name, h, pyOr_of_truthy _ _ (truthy_vstr_of_ne s hs)]
    rfl
  · intro m s h1 h hs
    show (resolve_file_name m).asString = s
    rw [resolve_file_name, pyOr_of_falsy _ _ h1, h,
      pyOr_of_truthy _ _ (truthy_vstr_of_ne s hs)]
    rfl
  · intro m p h1 h2 h hp
    show (resolve_file_name m).asString = lastPathSegment p
    rw [resolve_file_name, pyOr_of_falsy _ _ h1, pyOr_of_falsy _ _ h2]
    rw [show metaGetStrD m "file_path" "" = p from by rw [metaGetStrD, h]]
    rw [pyOr_of_truthy _ _ (truthy_vstr_of_ne _ hp)]
    rfl
  · intro m h1 h2 h3
    show (resolve_file_name m).asString = "Unknown Document"
    rw [resolve_file_name, pyOr_of_falsy _ _ h1, pyOr_of_falsy _ _ h2, h3,
      pyOr_of_falsy _ _ (by decide)]
    rfl
  · intro s h
    simp [coerce_page, h]
  · intro s h
    simp [coerce_page, h]

/-- C4 witness: the `filename` fallback fires on a concrete dictionary. -/
theorem C4_metadata_normalization_witness :
    (metaGet [("filename", PyVal.vstr "b.txt")] "file_name").truthy = false
    ∧ metaGet [("filename", PyVal.vstr "b.txt")] "filename" = .vstr "b.txt"
    ∧ "b.txt" ≠ ""
    ∧ (normalize_metadata [("filename", PyVal.vstr "b.txt")]).file_name =
        "b.txt" :=
  ⟨by decide, by decide, by decide,
    C4_metadata_normalization.2.2.1 [("filename", PyVal.vstr "b.txt")] "b.txt"
      (by decide) (by decide) (by decide)⟩

/-! ## Claim C10 -/

/-- C10: page-key resolution chains the alternate keys with boolean-or on the
raw values, so truthiness decides fallthrough: the integer value `0` under
`page` (with no later alternate key set) normalizes to an absent page, while
the digit string `"0"` under the same key normalizes to the integer `0`. -/
theorem C10_page_zero_truthiness :
    ((normalize_metadata [("page", PyVal.vint 0)]).page = none
      ∧ (normalize_metadata [("page", PyVal.vstr "0")]).page = some 0)
    ∧ ∀ (m : NodeMeta), metaGet m "page" = .vint 0 →
        metaGet m "page_number" = .vnone → metaGet m "page_label" = .vnone →
        (normalize_metadata m).page = none := by
  refine ⟨by decide, ?_⟩
  intro m h1 h2 h3
  show coerce_page (resolve_page_raw m) = none
  rw [resolve_page_raw, h1, h2, h3, pyOr_of_falsy _ _ (by decide),
    pyOr_of_falsy _ _ (by decide)]
  rfl

/-- C10 witness: the generic truthiness statement applied to the concrete
dictionary `{"page": 0}`. -/
theorem C10_page_zero_truthiness_witness :
    metaGet [("page", PyVal.vint 0)] "page" = .vint 0
    ∧ metaGet [("page", PyVal.vint 0)] "page_number" = .vnone
    ∧ metaGet [("page", PyVal.vint 0)] "page_label" = .vnone
    ∧ (normalize_metadata [("page", PyVal.vint 0)]).page = none :=
  ⟨by decide, by decide, by decide,
    C10_page_zero_truthiness.2 [("page", PyVal.vint 0)]
      (by decide) (by decide) (by decide)⟩

/-! ## Pipeline evaluation helpers -/

theorem basic_health_vs (env : RagEnv) (hb : basic_health_ok env = true) :
    env.vectorStoreBound = true := by
  simp only [basic_health_ok, health_check, Bool.and_eq_true] at hb
  tauto

theorem rag_query_eval_notHealthy (env : RagEnv) (req : QueryRequest)
    (hb : basic_health_ok env = false) :
    rag_repository_query env req = (.error .notHealthy, []) := by
  simp [rag_repository_query, hb]

theorem rag_query_eval_empty (env : RagEnv) (req : QueryRequest)
    (hb : basic_health_ok env = true) (hd : env.docCount = 0) :
    rag_repository_query env req = (.error .emptyIndex, []) := by
  simp [rag_repository_query, hb, hd]

theorem rag_query_eval_ok (env : RagEnv) (req : QueryRequest)
    (hb : basic_health_ok env = true) (hd : env.docCount ≠ 0) :
    rag_repository_query env req =
      (.ok { chat_response := env.synthesize (engine_retrieve env.candidates
                (optimized_top_k req.top_k) similarity_cutoff)
             source_documents := ((engine_retrieve env.candidates
                (optimized_top_k req.top_k) similarity_cutoff).take
                req.top_k).map mk_source_document },
       [.search (optimized_top_k req.top_k) similarity_cutoff, .synthesize]) := by
  have hvs := basic_health_vs env hb
  cases hR : engine_retrieve env.candidates (optimized_top_k req.top_k)
      similarity_cutoff with
  | nil => simp [rag_repository_query, hb, hd, hvs, hR]
  | cons a l => simp [rag_repository_query, hb, hd, hvs, hR]

/-! ## Claim C5 -/

/-- C5: the Query Pipeline's query operation fails (raises, returning no
`QueryResponse`) exactly when, in order: the basic health checks excluding
the index-presence check do not all pass (`NotHealthy`), or the vector
store's document count is zero (`EmptyIndex`); when it fails for either
reason nothing is retrieved or synthesized (the effect trace is empty). -/
theorem C5_pipeline_gating :
    ∀ (env : RagEnv) (req : QueryRequest),
      ((∃ resp, (rag_repository_query env req).1 = .ok resp) ↔
        (basic_health_ok env = true ∧ env.docCount ≠ 0))
      ∧ (basic_health_ok env = false →
          rag_repository_query env req = (.error .notHealthy, []))
      ∧ (basic_health_ok env = true → env.docCount = 0 →
          rag_repository_query env req = (.error .emptyIndex, [])) := by
  intro env req
  refine ⟨⟨?_, ?_⟩, rag_query_eval_notHealthy env req,
    rag_query_eval_empty env req⟩
  · rintro ⟨resp, h⟩
    by_cases hb : basic_health_ok env = true
    · by_cases hd : env.docCount = 0
      · rw [rag_query_eval_empty env req hb hd] at h
        simp at h
      · exact ⟨hb, hd⟩
    · rw [rag_query_eval_notHealthy env req (Bool.eq_false_iff.mpr hb)] at h
      simp at h
  · rintro ⟨hb, hd⟩
    exact ⟨_, by rw [rag_query_eval_ok env req hb hd]⟩

/-- Environments used to instantiate the pipeline theorems: a healthy one
and one whose database probe fails. -/
def rag_env_ok : RagEnv :=
  { engineConnected := true, vectorStoreBound := true, modelsBound := true
    indexPresent := true, docCount := 2, candidates := []
    synthesize := fun _ => "the answer" }

def rag_env_down : RagEnv :=
  { engineConnected := false, vectorStoreBound := true, modelsBound := true
    indexPresent := true, docCount := 2, candidates := []
    synthesize := fun _ => "the answer" }

def req3 : QueryRequest := { query := "who won", top_k := 3 }

/-- C5 witness: an unhealthy environment yields `NotHealthy` with an empty
effect trace. -/
theorem C5_pipeline_gating_witness :
    basic_health_ok rag_env_down = false
    ∧ rag_repository_query rag_env_down req3 =
        (.error .notHealthy, []) :=
  ⟨rfl, (C5_pipeline_gating rag_env_down req3).2.1 rfl⟩

/-! ## Claim C2 -/

/-- C2: for every `top_k ≥ 1` the number of candidates requested from
similarity search equals `min(top_k * 2, 15)` (`3 → 6`, `10 → 15`,
`20 → 15`), and the search is configured with the fixed similarity cutoff
`0.6`. -/
theorem C2_overfetch_config :
    (optimized_top_k 3 = 6 ∧ optimized_top_k 10 = 15 ∧ optimized_top_k 20 = 15)
    ∧ (∀ k : Nat, 1 ≤ k → optimized_top_k k = min (k * 2) 15)
    ∧ similarity_cutoff = 6 / 10
    ∧ (∀ (env : RagEnv) (req : QueryRequest) (resp : QueryResponse),
        (rag_repository_query env req).1 = .ok resp →
        (rag_repository_query env req).2 =
          [.search (min (req.top_k * 2) 15) similarity_cutoff, .synthesize]) := by
  refine ⟨by decide, fun k _ => rfl, by norm_num [similarity_cutoff], ?_⟩
  intro env req resp h
  by_cases hb : basic_health_ok env = true
  · by_cases hd : env.docCount = 0
    · rw [rag_query_eval_empty env req hb hd] at h
      simp at h
    · rw [rag_query_eval_ok env req hb hd]
      rfl
  · rw [rag_query_eval_notHealthy env req (Bool.eq_false_iff.mpr hb)] at h
    simp at h

/-- C2 witness: a successful call over a healthy environment emits the
over-fetch search effect for `top_k = 3`. -/
theorem C2_overfetch_config_witness :
    (1 ≤ 3 ∧ optimized_top_k 3 = min (3 * 2) 15)
    ∧ (rag_repository_query rag_env_ok req3).1 =
        .ok { chat_response := "the answer", source_documents := [] }
    ∧ (rag_repository_query rag_env_ok req3).2 =
        [.search (min (req3.top_k * 2) 15) similarity_cutoff, .synthesize] :=
  ⟨⟨by decide, C2_overfetch_config.2.1 3 (by decide)⟩, rfl,
    C2_overfetch_config.2.2.2 rag_env_ok req3
      { chat_response := "the answer", source_documents := [] } rfl⟩

/-! ## Claim C3 -/

/-- C3: for every `top_k ≥ 1`, the returned `source_documents` has length at
most `top_k` and at most the number of candidates above the similarity
cutoff, and consists of the first `top_k` retrieved entries in the search's
native order (no reordering before truncation). -/
theorem C3_truncation :
    ∀ (env : RagEnv) (req : QueryRequest) (resp : QueryResponse),
      1 ≤ req.top_k →
      (rag_repository_query env req).1 = .ok resp →
      resp.source_documents.length ≤ req.top_k
      ∧ resp.source_documents.length ≤
          (env.candidates.filter (fun n => similarity_cutoff ≤ n.score)).length
      ∧ resp.source_documents =
          ((engine_retrieve env.candidates (optimized_top_k req.top_k)
            similarity_cutoff).take req.top_k).map mk_source_document := by
  intro env req resp _ h
  by_cases hb : basic_health_ok env = true
  · by_cases hd : env.docCount = 0
    · rw [rag_query_eval_empty env req hb hd] at h
      simp at h
    · rw [rag_query_eval_ok env req hb hd] at h
      simp only [Except.ok.injEq] at h
      subst h
      refine ⟨?_, ?_, rfl⟩
      · simp [List.length_take]
      · have hsub : (engine_retrieve env.candidates (optimized_top_k req.top_k)
            similarity_cutoff).length ≤
            (env.candidates.filter (fun n => similarity_cutoff ≤ n.score)).length :=
          ((List.take_sublist _ _).filter _).length_le
        calc (((engine_retrieve env.candidates (optimized_top_k req.top_k)
                similarity_cutoff).take req.top_k).map mk_source_document).length
            ≤ (engine_retrieve env.candidates (optimized_top_k req.top_k)
                similarity_cutoff).length := by
              simp [List.length_take]
          _ ≤ _ := hsub
  · rw [rag_query_eval_notHealthy env req (Bool.eq_false_iff.mpr hb)] at h
    simp at h

/-- C3 witness: truncation bounds at a concrete healthy environment. -/
theorem C3_truncation_witness :
    (1 ≤ req3.top_k
      ∧ (rag_repository_query rag_env_ok req3).1 =
          .ok { chat_response := "the answer", source_documents := [] })
    ∧ (QueryResponse.mk "the answer" []).source_documents.length ≤ req3.top_k :=
  ⟨⟨by decide, rfl⟩,
    (C3_truncation rag_env_ok req3
      { chat_response := "the answer", source_documents := [] }
      (by decide) rfl).1⟩

/-! ## Claim C1 -/

/-- C1: for every `QueryRequest`, the Orchestration Service's query operation
returns a `QueryResponse` and never propagates an exception: when the
pipeline raises, the returned response is the fixed placeholder
`"Error processing query."` with an empty source list, and a failure of the
history write inside the cleanup phase also never raises out of the call
(the result is `.ok` for every environment, in particular when
`save_fails = true`). -/
theorem C1_orchestration_never_raises :
    ∀ (env : OrchestrationEnv) (req : QueryRequest),
      (∃ out, rag_service_query env req = .ok out)
      ∧ (∀ (e : String) (out : OrchestrationResult),
          env.pipeline_outcome = .error e →
          rag_service_query env req = .ok out →
          out.response.chat_response = "Error processing query."
          ∧ out.response.source_documents = []) := by
  intro env req
  refine ⟨⟨_, rfl⟩, ?_⟩
  intro e out he hok
  simp only [rag_service_query, he] at hok
  simp only [Except.ok.injEq] at hok
  subst hok
  exact ⟨rfl, rfl⟩

/-- Environments used to instantiate the orchestration theorems: one whose
pipeline raises and whose ledger write also fails, one fully successful. -/
def orch_env_err : OrchestrationEnv :=
  { pipeline_outcome := .error "boom", save_fails := true
    time_at_start := 0, time_after_pipeline := 1 }

def orch_env_ok : OrchestrationEnv :=
  { pipeline_outcome := .ok { chat_response := "fine", source_documents := [] }
    save_fails := false, time_at_start := 0, time_after_pipeline := 1 }

def orch_err_out : OrchestrationResult :=
  { response := error_placeholder_response
    save_calls := [{ request := req3
                     response := error_placeholder_response
                     response_time_ms := pyIntOfRat
                       ((orch_env_err.time_after_pipeline -
                          orch_env_err.time_at_start) * 1000)
                     success := false
                     error_message := some "boom" }]
    saved := false }

def orch_ok_out : OrchestrationResult :=
  { response := { chat_response := "fine", source_documents := [] }
    save_calls := [{ request := req3
                     response := { chat_response := "fine", source_documents := [] }
                     response_time_ms := pyIntOfRat
                       ((orch_env_ok.time_after_pipeline -
                          orch_env_ok.time_at_start) * 1000)
                     success := true
                     error_message := none }]
    saved := true }

/-- C1 witness: a failing pipeline plus a failing ledger write still yields
an `.ok` result carrying the placeholder response. -/
theorem C1_orchestration_never_raises_witness :
    orch_env_err.pipeline_outcome = .error "boom"
    ∧ rag_service_query orch_env_err req3 = .ok orch_err_out
    ∧ orch_err_out.response.chat_response = "Error processing query."
    ∧ orch_err_out.response.source_documents = [] :=
  ⟨rfl, rfl,
    (C1_orchestration_never_raises orch_env_err req3).2 "boom" orch_err_out
      rfl rfl⟩

/-! ## Claim C7 -/

/-- C7: every call to the Orchestration Service's query operation performs
exactly one History Ledger record-write attempt in a cleanup phase that runs
regardless of the pipeline outcome, with elapsed time measured from just
before the pipeline call to just after it, `success = true` with no error
message on success and `success = false` with the exception text on
failure. -/
theorem C7_single_ledger_write :
    ∀ (env : OrchestrationEnv) (req : QueryRequest) (out : OrchestrationResult),
      rag_service_query env req = .ok out →
      out.save_calls.length = 1
      ∧ ∀ c ∈ out.save_calls,
          c.request = req
          ∧ c.response_time_ms =
              pyIntOfRat ((env.time_after_pipeline - env.time_at_start) * 1000)
          ∧ (∀ r, env.pipeline_outcome = .ok r →
              c.success = true ∧ c.error_message = none ∧ c.response = r)
          ∧ (∀ e, env.pipeline_outcome = .error e →
              c.success = false ∧ c.error_message = some e
              ∧ c.response = error_placeholder_response) := by
  intro env req out hok
  cases hp : env.pipeline_outcome with
  | ok r =>
    simp only [rag_service_query, hp] at hok
    simp only [Except.ok.injEq] at hok
    subst hok
    refine ⟨rfl, ?_⟩
    intro c hc
    simp only [List.mem_singleton] at hc
    subst hc
    refine ⟨rfl, rfl, ?_, ?_⟩
    · intro r' hr
      simp only [Except.ok.injEq] at hr
      subst hr
      exact ⟨rfl, rfl, rfl⟩
    · intro e he
      simp at he
  | error e =>
    simp only [rag_service_query, hp] at hok
    simp only [Except.ok.injEq] at hok
    subst hok
    refine ⟨rfl, ?_⟩
    intro c hc
    simp only [List.mem_singleton] at hc
    subst hc
    refine ⟨rfl, rfl, ?_, ?_⟩
    · intro r' hr
      simp at hr
    · intro e' he
      simp only [Except.error.injEq] at he
      subst he
      exact ⟨rfl, rfl, rfl⟩

/-- C7 witness: the successful environment performs exactly one write. -/
theorem C7_single_ledger_write_witness :
    rag_service_query orch_env_ok req3 = .ok orch_ok_out
    ∧ orch_ok_out.save_calls.length = 1 :=
  ⟨rfl, (C7_single_ledger_write orch_env_ok req3 orch_ok_out rfl).1⟩

/-! ## Claim C8 helpers -/

theorem child_writes_length (env : HistoryEnv) :
    ∀ (i : Nat) (ds : List SourceDocument),
      (child_writes env i ds).length = ds.length
  | _, [] => rfl
  | i, _ :: ds => by
    simp [child_writes, child_writes_length env (i + 1) ds]

theorem child_writes_all_child (env : HistoryEnv) :
    ∀ (i : Nat) (ds : List SourceDocument),
      (child_writes env i ds).filter LedgerWrite.isChild = child_writes env i ds
  | _, [] => rfl
  | i, d :: ds => by
    simp [child_writes, LedgerWrite.isChild, List.filter_cons,
      child_writes_all_child env (i + 1) ds]

theorem child_writes_mem (env : HistoryEnv) :
    ∀ (i j : Nat) (ds : List SourceDocument) (d : SourceDocument),
      ds[j]? = some d →
      LedgerWrite.childAttempt (i + j) (d.content.take 500) d.score
        (!env.childFails (i + j)) ∈ child_writes env i ds := by
  intro i j ds
  induction ds generalizing i j with
  | nil => intro d h; simp at h
  | cons d' ds ih =>
    intro d h
    cases j with
    | zero =>
      simp only [List.getElem?_cons_zero, Option.some.injEq] at h
      subst h
      simp [child_writes]
    | succ j' =>
      simp only [List.getElem?_cons_succ] at h
      have hmem := ih (i + 1) j' d h
      rw [child_writes]
      have harith : i + 1 + j' = i + (j' + 1) := by omega
      rw [harith] at hmem
      exact List.mem_cons_of_mem _ hmem

/-! ## Claim C8 -/

/-- C8: in the History Ledger's record operation, a parent-row failure means
no child rows are attempted and null is returned; on parent success exactly
one child row is attempted per source document, with `content_preview` the
first 500 characters of the document content, and a single child failure
neither rolls back the parent nor aborts the remaining children (the number
of child attempts equals the number of documents for every failure
pattern). -/
theorem C8_record_write_behavior :
    ∀ (env : HistoryEnv) (req : QueryRequest) (resp : QueryResponse)
      (t : Option Int) (s : Bool) (em : Option String),
      (env.parentFails = true →
        (save_query_history env req resp t s em).1 = none
        ∧ ((save_query_history env req resp t s em).2.filter
            LedgerWrite.isChild) = [])
      ∧ (env.parentFails = false →
          (save_query_history env req resp t s em).1 = some env.newParentId
          ∧ ((save_query_history env req resp t s em).2.filter
              LedgerWrite.isChild).length = resp.source_documents.length
          ∧ LedgerWrite.parentAttempt (record_args req resp t s em) true
              ∈ (save_query_history env req resp t s em).2
          ∧ ∀ (j : Nat) (d : SourceDocument),
              resp.source_documents[j]? = some d →
              LedgerWrite.childAttempt j (d.content.take 500) d.score
                  (!env.childFails j)
                ∈ (save_query_history env req resp t s em).2) := by
  intro env req resp t s em
  constructor
  · intro hp
    constructor
    · simp [save_query_history, hp]
    · simp [save_query_history, hp, List.filter_cons, LedgerWrite.isChild]
  · intro hp
    refine ⟨by simp [save_query_history, hp], ?_, ?_, ?_⟩
    · simp only [save_query_history, hp, if_false, Bool.false_eq_true,
        List.filter_cons]
      simp [LedgerWrite.isChild, child_writes_all_child env 0,
        child_writes_length env 0]
    · simp [save_query_history, hp]
    · intro j d hj
      simp only [save_query_history, hp, if_false, Bool.false_eq_true]
      have hmem := child_writes_mem env 0 j resp.source_documents d hj
      simp only [Nat.zero_add] at hmem
      exact List.mem_cons_of_mem _ hmem

/-- Concrete instances for the record-write witness: the first child insert
fails, the second succeeds. -/
def hist_env_w : HistoryEnv :=
  { parentFails := false, childFails := fun i => i == 0, newParentId := 7 }

def doc_a : SourceDocument :=
  { content := "alpha content", score := 1
    metadata := { file_name := "a.pdf", page := some 1, source := none } }

def doc_b : SourceDocument :=
  { content := "beta content", score := 2
    metadata := { file_name := "b.pdf", page := none, source := none } }

def resp_two_docs : QueryResponse :=
  { chat_response := "fine", source_documents := [doc_a, doc_b] }

/-- C8 witness: with the first child insert failing, both children are still
attempted, the parent commit survives, and the parent id is returned. -/
theorem C8_record_write_behavior_witness :
    hist_env_w.parentFails = false
    ∧ (save_query_history hist_env_w req3 resp_two_docs (some 5) true none).1 =
        some hist_env_w.newParentId
    ∧ resp_two_docs.source_documents[0]? = some doc_a
    ∧ LedgerWrite.childAttempt 0 (doc_a.content.take 500) doc_a.score
        (!hist_env_w.childFails 0)
        ∈ (save_query_history hist_env_w req3 resp_two_docs (some 5) true
            none).2 :=
  ⟨rfl,
    ((C8_record_write_behavior hist_env_w req3 resp_two_docs (some 5) true
      none).2 rfl).1,
    rfl,
    ((C8_record_write_behavior hist_env_w req3 resp_two_docs (some 5) true
      none).2 rfl).2.2.2 0 doc_a rfl⟩

/-! ## Claim C9 helpers -/

/-- A generic stored row used to build concrete history tables. -/
def history_row (n : Nat) (t : Option Int) (s : Bool) : QueryHistoryRow :=
  { id := n, query := "q", chat_response := "a", top_k := 3
    response_time_ms := t, source_document_count := 0, created_at := n
    success := s, error_message := none }

theorem history_sort_desc_sorted (db : List QueryHistoryRow) :
    List.Sorted (fun a b : QueryHistoryRow => b.created_at ≤ a.created_at)
      (history_sort_desc db) := by
  have h : (db.mergeSort (fun a b => decide (b.created_at ≤ a.created_at))).Pairwise
      (fun a b : QueryHistoryRow =>
        decide (b.created_at ≤ a.created_at) = true) := by
    apply List.sorted_mergeSort
    · intro a b c hab hbc
      have h1 := of_decide_eq_true hab
      have h2 := of_decide_eq_true hbc
      exact decide_eq_true (le_trans h2 h1)
    · intro a b
      rcases Nat.le_total b.created_at a.created_at with h | h
      · simp [decide_eq_true h]
      · simp [decide_eq_true h]
  exact h.imp (fun hab => of_decide_eq_true hab)

/-- 15 rows with distinct creation times. -/
def pagination_example_db : List QueryHistoryRow :=
  (List.range 15).map (fun i => history_row i none true)

/-! ## Claim C9 -/

/-- C9: for every `limit` and `offset`, the list operation returns at most
`limit` records ordered by creation time descending, skipping the first
`offset` records of that ordering, together with a `total_count` equal to
the number of stored records independent of the page window (after inserting
15 records, `list(limit=10, offset=0)` returns 10 items and
`total_count = 15`). -/
theorem C9_pagination :
    (∀ (db : List QueryHistoryRow) (limit offset : Nat),
      (get_query_history_paginated db limit offset).items.length ≤ limit
      ∧ (get_query_history_paginated db limit offset).total_count = db.length
      ∧ List.Sorted (fun a b : QueryHistoryRow => b.created_at ≤ a.created_at)
          (get_query_history_paginated db limit offset).items
      ∧ (get_query_history_paginated db limit offset).items =
          ((history_sort_desc db).drop offset).take limit)
    ∧ (get_query_history_paginated pagination_example_db 10 0).items.length = 10
    ∧ (get_query_history_paginated pagination_example_db 10 0).total_count = 15 := by
  have hlen15 : (history_sort_desc pagination_example_db).length = 15 := by
    rw [history_sort_desc, (List.mergeSort_perm pagination_example_db _).length_eq]
    simp [pagination_example_db]
  refine ⟨?_, ?_, rfl⟩
  · intro db limit offset
    refine ⟨?_, rfl, ?_, rfl⟩
    · show (((history_sort_desc db).drop offset).take limit).length ≤ limit
      rw [List.length_take]
      exact min_le_left _ _
    · show List.Sorted _ (((history_sort_desc db).drop offset).take limit)
      have hsub : List.Sublist
          (((history_sort_desc db).drop offset).take limit)
          (history_sort_desc db) :=
        (List.take_sublist _ _).trans (List.drop_sublist _ _)
      exact (history_sort_desc_sorted db).sublist hsub
  · show (((history_sort_desc pagination_example_db).drop 0).take 10).length = 10
    rw [List.drop_zero, List.length_take, hlen15]
    norm_num

/-! ## Claim C6 helpers -/

theorem time_len (db : List QueryHistoryRow) :
    (db.filterMap (fun r => r.response_time_ms)).length =
      (get_queries_with_response_time db).length := by
  rw [get_queries_with_response_time]
  induction db with
  | nil => rfl
  | cons r ds ih =>
    cases h : r.response_time_ms with
    | none => simpa [List.filterMap_cons, List.filter_cons, h] using ih
    | some n => simpa [List.filterMap_cons, List.filter_cons, h] using ih

theorem time_sum (db : List QueryHistoryRow) :
    (((get_queries_with_response_time db).filter
        (fun q => pyTruthyOptInt q.response_time_ms)).map
      (fun q => ((q.response_time_ms.getD 0 : Int) : ℚ))).sum =
    ((db.filterMap (fun r => r.response_time_ms)).map
      (fun n => (n : ℚ))).sum := by
  rw [get_queries_with_response_time]
  induction db with
  | nil => rfl
  | cons r ds ih =>
    cases h : r.response_time_ms with
    | none =>
      simpa [List.filterMap_cons, List.filter_cons, h, pyTruthyOptInt] using ih
    | some n =>
      by_cases hn : n = 0
      · subst hn
        simpa [List.filterMap_cons, List.filter_cons, h, pyTruthyOptInt] using ih
      · simpa [List.filterMap_cons, List.filter_cons, h, pyTruthyOptInt, hn]
          using ih

theorem pyRound2_zero : pyRound2 0 = 0 := by
  norm_num [pyRound2, roundHalfEven]

/-- The three-record table of the spec's worked statistics example. -/
def stats_example_db : List QueryHistoryRow :=
  [history_row 0 (some 100) true, history_row 1 (some 200) true,
   history_row 2 none false]

/-- A single record whose (non-null) response time is 0 ms. -/
def stats_zero_db : List QueryHistoryRow := [history_row 0 (some 0) true]

/-! ## Claim C6 -/

/-- C6 counterexample: on a table holding one record with response time
`0 ms`, a record does have a response time and the mean of the non-null
times is `0`, yet the code returns a null average (the unrounded average is
falsy in Python), so the claim's "otherwise the mean of all non-null
response times rounded to 2 decimals" fails at this input. -/
theorem C6_statistics_zero_counterexample :
    stats_zero_db.filterMap (fun r => r.response_time_ms) ≠ []
    ∧ spec_mean_response_time stats_zero_db = 0
    ∧ (get_query_statistics stats_zero_db).average_response_time_ms = none
    ∧ (get_query_statistics stats_zero_db).average_response_time_ms ≠
        some (pyRound2 (spec_mean_response_time stats_zero_db)) := by
  have hmean : spec_mean_response_time stats_zero_db = 0 := by
    simp [spec_mean_response_time, stats_zero_db, history_row]
  have hnone : (get_query_statistics stats_zero_db).average_response_time_ms =
      none := by
    simp [get_query_statistics, get_queries_with_response_time,
      get_total_query_count, get_successful_query_count, stats_zero_db,
      history_row, pyTruthyOptInt]
  refine ⟨by simp [stats_zero_db, history_row], hmean, hnone, ?_⟩
  rw [hnone]
  simp

/-- C6 (amended): `statistics()` returns `success_rate_percent = 0` when the
record count is 0 and otherwise `successful/total*100` rounded to 2
decimals; it returns `average_response_time_ms = null` when no record has a
response time *or when the mean of the non-null response times is 0*, and
otherwise the mean of all non-null response times rounded to 2 decimals
(for success `{true,true,false}` and times `{100,200,null}` it returns
`66.67` and `150.0`). -/
theorem C6_statistics_amended :
    (∀ db : List QueryHistoryRow,
      (get_query_statistics db).total_queries = db.length
      ∧ (get_query_statistics db).successful_queries =
          (db.filter (fun r => r.success)).length
      ∧ (get_query_statistics db).success_rate_percent =
          (if db.length = 0 then 0
           else pyRound2 (((db.filter (fun r => r.success)).length : ℚ) /
              (db.length : ℚ) * 100))
      ∧ (get_query_statistics db).average_response_time_ms =
          (if db.filterMap (fun r => r.response_time_ms) = []
              ∨ spec_mean_response_time db = 0 then none
           else some (pyRound2 (spec_mean_response_time db))))
    ∧ (get_query_statistics stats_example_db).success_rate_percent = 6667 / 100
    ∧ (get_query_statistics stats_example_db).average_response_time_ms =
        some 150 := by
  have hmain : ∀ db : List QueryHistoryRow,
      (get_query_statistics db).total_queries = db.length
      ∧ (get_query_statistics db).successful_queries =
          (db.filter (fun r => r.success)).length
      ∧ (get_query_statistics db).success_rate_percent =
          (if db.length = 0 then 0
           else pyRound2 (((db.filter (fun r => r.success)).length : ℚ) /
              (db.length : ℚ) * 100))
      ∧ (get_query_statistics db).average_response_time_ms =
          (if db.filterMap (fun r => r.response_time_ms) = []
              ∨ spec_mean_response_time db = 0 then none
           else some (pyRound2 (spec_mean_response_time db))) := by
    intro db
    refine ⟨rfl, rfl, ?_, ?_⟩
    · by_cases h0 : db.length = 0
      · have ht : get_total_query_count db = 0 := h0
        simp [get_query_statistics, ht, h0, pyRound2_zero]
      · have hpos : 0 < db.length := Nat.pos_of_ne_zero h0
        simp [get_query_statistics, get_total_query_count,
          get_successful_query_count, h0, hpos]
    · by_cases hw0 : get_queries_with_response_time db = []
      · have hT : db.filterMap (fun r => r.response_time_ms) = [] := by
          have hl := time_len db
          rw [hw0] at hl
          exact List.length_eq_zero.mp hl
        simp [get_query_statistics, hw0, hT]
      · have hie : (get_queries_with_response_time db).isEmpty = false := by
          cases hcase : get_queries_with_response_time db with
          | nil => exact absurd hcase hw0
          | cons a l => rfl
        have hT : db.filterMap (fun r => r.response_time_ms) ≠ [] := by
          intro hc
          have hl := time_len db
          rw [hc] at hl
          exact hw0 (List.length_eq_zero.mp hl.symm)
        have ha : (((get_queries_with_response_time db).filter
              (fun q => pyTruthyOptInt q.response_time_ms)).map
              (fun q => ((q.response_time_ms.getD 0 : Int) : ℚ))).sum /
              ((get_queries_with_response_time db).length : ℚ) =
            spec_mean_response_time db := by
          rw [spec_mean_response_time, time_sum db, ← time_len db]
        simp only [get_query_statistics, hie, Bool.false_eq_true, if_false,
          ha]
        by_cases hz : spec_mean_response_time db = 0
        · simp [hz, hT]
        · simp [hz, hT]
  have hsr : (get_query_statistics stats_example_db).success_rate_percent =
      pyRound2 ((2 : ℚ) / 3 * 100) := by
    have h := (hmain stats_example_db).2.2.1
    rw [h]
    norm_num [stats_example_db, history_row, List.filter_cons]
  have hm : spec_mean_response_time stats_example_db = 150 := by
    simp [spec_mean_response_time, stats_example_db, history_row]
    norm_num
  have havg : (get_query_statistics stats_example_db).average_response_time_ms =
      some (pyRound2 (spec_mean_response_time stats_example_db)) := by
    have h := (hmain stats_example_db).2.2.2
    rw [h]
    have hcond : ¬(stats_example_db.filterMap (fun r => r.response_time_ms) = []
        ∨ spec_mean_response_time stats_example_db = 0) := by
      rintro (hc | hc)
      · simp [stats_example_db, history_row] at hc
      · rw [hm] at hc
        norm_num at hc
    rw [if_neg hcond]
  have hval : pyRound2 ((2 : ℚ) / 3 * 100) = 6667 / 100 := by
    have hq : ((2 : ℚ) / 3 * 100) * 100 = 20000 / 3 := by norm_num
    rw [pyRound2, hq]
    have hf : ⌊(20000 / 3 : ℚ)⌋ = 6666 := by norm_num
    rw [roundHalfEven, hf]
    norm_num
  have h150 : pyRound2 (150 : ℚ) = 150 := by
    have hq : ((150 : ℚ) * 100) = 15000 := by norm_num
    rw [pyRound2, hq]
    have hf : ⌊(15000 : ℚ)⌋ = 15000 := by norm_num
    rw [roundHalfEven, hf]
    norm_num
  refine ⟨hmain, ?_, ?_⟩
  · rw [hsr, hval]
  · rw [havg, hm, h150]

end CricketRAG
